import Mathlib

/-
Verification development for the AI-Lead-Qualification-Bot repository.

Shallow embedding of the lead-qualification engine:
  * models/predictive_model.py  (LeadScoringModel: extract_features, predict,
    _calculate_score, _extract_signals, _generate_recommendation,
    _default_prediction)
  * models/llm_pipeline.py      (LLMPipeline: process_message,
    _generate_structured_output, _generate_crm_tags, _generate_explanation,
    _error_response)
  * integrations/manager.py, integrations/hubspot.py,
    integrations/salesforce.py (CRMClient.sync_leads, create_lead)

Modelling conventions:
  * Python str values that are scanned for substrings are modelled as
    List Char; categorical results and fixed labels are Lean String.
  * Python floats are modelled as exact rationals.  All arithmetic the
    claims depend on is branch and clamp logic, not float rounding.
  * Python dict .get with a default is modelled by Option fields (a
    missing key is none) or by fields carrying the default directly.
  * Python int() truncates toward zero; pyInt models that on rationals.
  * Python truthiness of an optional integer (None and 0 falsy) is
    modelled explicitly where the source tests `if value:`.
  * Network calls (requests.post + raise_for_status + json id lookup)
    are modelled as an explicit function argument returning Except:
    Except.error e models a raised exception whose str() is e, and
    Except.ok i models a successful call whose response id is i.
-/

namespace LeadBot

/-- Lowercase a text, modelling str.lower(). -/
def lowerStr (s : List Char) : List Char := s.map Char.toLower

/-- Substring test, modelling the Python expression needle in hay.
An empty needle is contained in every text. -/
def strContains (needle : List Char) : List Char → Bool
  | [] => needle.isEmpty
  | c :: t => needle.isPrefixOf (c :: t) || strContains needle t

/-- Number of positions of hay at which needle begins: the occurrence
count of a substring, counting every hit. -/
def countOccur (needle : List Char) : List Char → Nat
  | [] => if needle.isEmpty then 1 else 0
  | c :: t => (if needle.isPrefixOf (c :: t) then 1 else 0) + countOccur needle t

/-- Join texts with single spaces, modelling a space-join of strings. -/
def joinSpace (l : List (List Char)) : List Char := (l.intersperse [' ']).flatten

/-- A conversation turn: a dict with a role and a content string. -/
structure Message where
  role : String
  content : List Char

/-- The lead_info dict of a conversation.  Fields the extractor reads;
a missing key is none.  team_size is modelled as an optional integer
(the source additionally coerces string values with int(); the integer
case is the one the claims exercise). -/
structure LeadInfoD where
  name : Option String := none
  email : Option String := none
  company : Option String := none
  role : Option (List Char) := none
  industry : Option String := none
  team_size : Option Int := none

/-- The behavioral_data dict; the source reads each key with a default
(0, 0.0, 0, False), so the fields carry those defaults. -/
structure BehavioralData where
  pages_visited : Nat := 0
  trial_usage : ℚ := 0
  email_opens : Nat := 0
  demo_requested : Bool := false

/-- The conversation_data dict handed to LeadScoringModel.predict and
LeadScoringModel.extract_features. -/
structure ConversationData where
  messages : List Message := []
  lead_info : LeadInfoD := {}
  behavioral_data : BehavioralData := {}

/-- The LeadFeatures dataclass of models/predictive_model.py with its
field defaults. -/
structure LeadFeatures where
  message_count : Nat := 0
  avg_message_length : ℚ := 0
  question_count : Nat := 0
  engagement_score : ℚ := 0
  budget_mentioned : Bool := false
  timeline_mentioned : Bool := false
  pain_points_clear : Bool := false
  decision_maker : Bool := false
  urgency_indicators : Nat := 0
  team_size : Option Int := none
  company_size_category : String := "unknown"
  industry : String := "unknown"
  role_authority : ℚ := 0
  pages_visited : Nat := 0
  trial_usage : ℚ := 0
  email_opens : Nat := 0
  demo_requested : Bool := false
  feature_questions : Nat := 0
  pricing_questions : Nat := 0
  integration_questions : Nat := 0
  competitor_mentions : Nat := 0

/-- Keyword table: budget signals. -/
def budget_keywords : List (List Char) :=
  ["budget", "cost", "price", "pricing", "expensive", "cheap", "afford"].map String.toList

/-- Keyword table: timeline signals. -/
def timeline_keywords : List (List Char) :=
  ["timeline", "deadline", "soon", "urgent", "asap", "month", "quarter"].map String.toList

/-- Keyword table: pain points. -/
def pain_keywords : List (List Char) :=
  ["problem", "issue", "challenge", "difficult", "struggle", "need"].map String.toList

/-- Keyword table: decision maker signals. -/
def decision_keywords : List (List Char) :=
  ["decision", "approve", "final", "manager", "director", "vp", "ceo"].map String.toList

/-- Keyword table: urgency indicators. -/
def urgency_keywords : List (List Char) :=
  ["urgent", "asap", "immediately", "quick", "fast", "now"].map String.toList

/-- Role-authority table in the exact order it is written in the source
dict (insertion order, which Python iteration follows). -/
def authority_keywords : List (List Char × ℚ) :=
  [("ceo", (1 : ℚ)), ("cto", 9/10), ("vp", 4/5), ("director", 7/10), ("manager", 3/5),
   ("head", 7/10), ("lead", 3/5), ("senior", 1/2), ("junior", 3/10)].map
    (fun p => (p.1.toList, p.2))

/-- Interest keyword table: feature questions. -/
def feature_words : List (List Char) :=
  ["feature", "capability", "function"].map String.toList

/-- Interest keyword table: pricing questions. -/
def pricing_words : List (List Char) :=
  ["price", "cost", "pricing", "plan"].map String.toList

/-- Interest keyword table: integration questions. -/
def integration_words : List (List Char) :=
  ["integrate", "api", "connection"].map String.toList

/-- Interest keyword table: competitor mentions. -/
def competitor_words : List (List Char) :=
  ["salesforce", "hubspot", "competitor"].map String.toList

/-- True iff any keyword of the table occurs in the text, modelling
any(keyword in text for keyword in keywords). -/
def anyKeyword (text : List Char) (kws : List (List Char)) : Bool :=
  kws.any (fun k => strContains k text)

/-- The lowercased space-join of all message contents, modelling the
conversation_text local of extract_features. -/
def conversation_text (msgs : List Message) : List Char :=
  lowerStr (joinSpace (msgs.map (fun m => m.content)))

/-- The first-match scan of the role-authority for-loop with break:
the score of the first table entry whose keyword occurs in the role,
else the 0.0 default. -/
def firstMatchScore (role : List Char) : List (List Char × ℚ) → ℚ
  | [] => 0
  | (k, s) :: rest => if strContains k role then s else firstMatchScore role rest

/-- The team_size block of extract_features.  The source guards with
Python truthiness (if team_size:), so a present value of 0 leaves both
the team_size field at None and the category at unknown; otherwise it
buckets greater than 1000 as enterprise, greater than 100 as
mid_market, else smb. -/
def team_size_fields (ts : Option Int) : Option Int × String :=
  match ts with
  | none => (none, "unknown")
  | some n =>
      if n ≠ 0 then
        (some n, if n > 1000 then "enterprise" else if n > 100 then "mid_market" else "smb")
      else (none, "unknown")

/-- LeadScoringModel.extract_features: derives the LeadFeatures record
from a conversation_data dict.  Faithful to the source order: stats,
keyword signals, demographics, behavioral passthrough, interest
counters, engagement score. -/
def extract_features (d : ConversationData) : LeadFeatures :=
  let messages := d.messages
  let message_count := messages.length
  let avg_message_length : ℚ :=
    if messages.isEmpty then 0
    else (messages.map (fun m => ((m.content.length : ℚ)))).sum / (messages.length : ℚ)
  let question_count : Nat :=
    if messages.isEmpty then 0
    else messages.countP (fun m => strContains (['?']) m.content)
  let text := conversation_text messages
  let budget_mentioned := anyKeyword text budget_keywords
  let timeline_mentioned := anyKeyword text timeline_keywords
  let pain_points_clear := anyKeyword text pain_keywords
  let decision_maker := anyKeyword text decision_keywords
  let urgency_indicators := urgency_keywords.countP (fun k => strContains k text)
  let tsf := team_size_fields d.lead_info.team_size
  let industry := d.lead_info.industry.getD "unknown"
  let role := lowerStr (d.lead_info.role.getD [])
  let role_authority := firstMatchScore role authority_keywords
  let pages_visited := d.behavioral_data.pages_visited
  let trial_usage := d.behavioral_data.trial_usage
  let email_opens := d.behavioral_data.email_opens
  let demo_requested := d.behavioral_data.demo_requested
  let feature_questions := messages.countP (fun m => anyKeyword (lowerStr m.content) feature_words)
  let pricing_questions := messages.countP (fun m => anyKeyword (lowerStr m.content) pricing_words)
  let integration_questions :=
    messages.countP (fun m => anyKeyword (lowerStr m.content) integration_words)
  let competitor_mentions :=
    messages.countP (fun m => anyKeyword (lowerStr m.content) competitor_words)
  let engagement_score : ℚ :=
    (message_count : ℚ) * (2/10) + avg_message_length * (1/10)
      + (question_count : ℚ) * (3/10) + (urgency_indicators : ℚ) * (4/10)
  { message_count := message_count
    avg_message_length := avg_message_length
    question_count := question_count
    engagement_score := engagement_score
    budget_mentioned := budget_mentioned
    timeline_mentioned := timeline_mentioned
    pain_points_clear := pain_points_clear
    decision_maker := decision_maker
    urgency_indicators := urgency_indicators
    team_size := tsf.1
    company_size_category := tsf.2
    industry := industry
    role_authority := role_authority
    pages_visited := pages_visited
    trial_usage := trial_usage
    email_opens := email_opens
    demo_requested := demo_requested
    feature_questions := feature_questions
    pricing_questions := pricing_questions
    integration_questions := integration_questions
    competitor_mentions := competitor_mentions }

/-- Python int() on a rational: truncation toward zero. -/
def pyInt (q : ℚ) : Int := if q < 0 then ⌈q⌉ else ⌊q⌋

/-- The intent_scores dict lookup with default 0 used by
LeadScoringModel._calculate_score. -/
def intent_scores (intent : String) : Int :=
  match intent with
  | "buy_soon" => 30
  | "considering" => 15
  | "researching" => 0
  | "not_interested" => -20
  | _ => 0

/-- The running base_score of LeadScoringModel._calculate_score before
the final int() and clamp, accumulated in source order. -/
def score_base (f : LeadFeatures) (intent : String) : ℚ :=
  50 + (intent_scores intent : ℚ)
    + (if f.budget_mentioned then 10 else 0)
    + (if f.timeline_mentioned then 10 else 0)
    + (if f.pain_points_clear then 15 else 0)
    + (if f.decision_maker then 20 else 0)
    + (if f.urgency_indicators > 0 then (f.urgency_indicators : ℚ) * 5 else 0)
    + min (f.engagement_score * 10) 20
    + (match f.team_size with
       | none => 0
       | some t =>
          if t ≠ 0 then (if t > 100 then (10 : ℚ) else if t > 10 then 5 else 0) else 0)
    + min ((f.pages_visited : ℚ) * 2) 10
    + min (f.trial_usage * 20) 20
    + min ((f.email_opens : ℚ)) 10
    + (if f.demo_requested then 15 else 0)

/-- LeadScoringModel._calculate_score: the base sum, truncated to an
integer and clamped to the closed interval 0..100. -/
def calculate_score (f : LeadFeatures) (intent : String) : Int :=
  max 0 (min 100 (pyInt (score_base f intent)))

/-- LeadScoringModel._extract_signals: human-readable signal strings in
fixed priority order, truncated to the first 5.  The team-size entry is
guarded by Python truthiness of the optional integer. -/
def extract_signals (f : LeadFeatures) : List String :=
  ((if f.budget_mentioned then ["budget mentioned"] else [])
    ++ (if f.timeline_mentioned then ["timeline specified"] else [])
    ++ (if f.pain_points_clear then ["pain points clear"] else [])
    ++ (if f.decision_maker then ["decision maker identified"] else [])
    ++ (if f.urgency_indicators > 0 then
          [toString f.urgency_indicators ++ " urgency indicators"] else [])
    ++ (match f.team_size with
        | none => []
        | some t => if t ≠ 0 then ["team size: " ++ toString t] else [])
    ++ (if f.demo_requested then ["demo requested"] else [])
    ++ (if f.trial_usage > 0 then ["trial usage detected"] else [])).take 5

/-- LeadScoringModel._generate_recommendation: threshold policy on the
score with a budget-signal test at the 60 tier. -/
def generate_recommendation (_intent : String) (score : Int) (signals : List String) : String :=
  if score ≥ 80 then "schedule_demo"
  else if score ≥ 60 then
    (if strContains ("budget".toList) (lowerStr (joinSpace (signals.map String.toList)))
     then "send_pricing" else "schedule_demo")
  else if score ≥ 40 then "send_ROI_report"
  else "nurture_email"

/-- The dict returned by LeadScoringModel.predict. -/
structure PredictionResult where
  intent : String
  score : Int
  signals : List String
  recommendation : String
  features : LeadFeatures

/-- LeadScoringModel._default_prediction: the fixed result used when no
trained classifier is available. -/
def default_prediction : PredictionResult :=
  { intent := "researching"
    score := 50
    signals := ["default_prediction"]
    recommendation := "nurture_email"
    features := {} }

/-- The scoring model state: whether a trained classifier is loaded and,
when it is, the classifier function (the LightGBM predict plus label
decoding, opaque to this development) mapping features to an intent. -/
structure ScoringModel where
  is_trained : Bool
  classify : LeadFeatures → String

/-- LeadScoringModel.predict: the untrained fallback, else feature
extraction, classification, scoring, signals and recommendation. -/
def predict (m : ScoringModel) (d : ConversationData) : PredictionResult :=
  if !m.is_trained then default_prediction
  else
    let f := extract_features d
    let intent := m.classify f
    let score := calculate_score f intent
    let signals := extract_signals f
    let recommendation := generate_recommendation intent score signals
    { intent := intent, score := score, signals := signals,
      recommendation := recommendation, features := f }

/-- The lead dict built inside LLMPipeline._generate_structured_output
and handed to _generate_crm_tags.  The source dict literal has exactly
the keys name, email, company, role and industry; team_size is carried
here as an Option so that the dict .get lookup in _generate_crm_tags
can be expressed, and _generate_structured_output always sets it to
none because the key is absent from the literal. -/
structure LeadOut where
  name : Option String := none
  email : Option String := none
  company : Option String := none
  role : Option (List Char) := none
  industry : Option String := none
  team_size : Option Int := none

/-- LLMPipeline._generate_crm_tags: size tag (guarded by truthiness of
the team_size lookup), priority tag by score threshold, intent tag,
tool-migration tags from the signal texts, truncated to 5. -/
def generate_crm_tags (lead : LeadOut) (pred : PredictionResult) : List String :=
  ((match lead.team_size with
    | none => []
    | some t =>
        if t ≠ 0 then
          [if t > 1000 then "enterprise" else if t > 100 then "mid_market" else "smb"]
        else [])
    ++ [if pred.score ≥ 80 then "high_priority"
        else if pred.score ≥ 60 then "medium_priority" else "low_priority"]
    ++ (if pred.intent = "buy_soon" then ["hot_lead"]
        else if pred.intent = "researching" then ["nurture"] else [])
    ++ (if strContains ("salesforce".toList)
            (lowerStr (joinSpace (pred.signals.map String.toList)))
        then ["salesforce_migration"] else [])
    ++ (if strContains ("hubspot".toList)
            (lowerStr (joinSpace (pred.signals.map String.toList)))
        then ["hubspot_migration"] else [])).take 5

/-- LLMPipeline._generate_explanation: one template per recommended
action, interpolating intent and score. -/
def generate_explanation (pred : PredictionResult) : String :=
  if pred.recommendation = "schedule_demo" then
    "High-scoring lead (" ++ toString pred.score ++ ") with " ++ pred.intent
      ++ " intent - ready for product demonstration."
  else if pred.recommendation = "send_pricing" then
    "Lead showing " ++ pred.intent ++ " intent with budget interest - pricing information requested."
  else if pred.recommendation = "send_ROI_report" then
    "Lead in " ++ pred.intent ++ " phase - ROI report will help demonstrate business value."
  else
    "Lead in " ++ pred.intent ++ " phase - nurture email to maintain engagement and provide value."

/-- The ConversationState dataclass of models/llm_pipeline.py. -/
structure ConversationState where
  conversation_id : String
  messages : List Message := []
  lead_info : LeadInfoD := {}
  behavioral_data : BehavioralData := {}
  collected_fields : List String := []
  current_intent : String := "researching"
  current_score : Int := 50

/-- The structured_output dict of LLMPipeline. -/
structure StructuredOutput where
  lead : LeadOut
  intent : String
  score : Int
  top_signals : List String
  recommended_action : String
  explain : String
  crm_tags : List String

/-- LLMPipeline._generate_structured_output: runs the predictive model
on the conversation snapshot, builds the lead dict (whose literal has
no team_size key, hence team_size := none here), derives CRM tags and
the explanation. -/
def generate_structured_output (m : ScoringModel) (conv : ConversationState) : StructuredOutput :=
  let d : ConversationData :=
    { messages := conv.messages, lead_info := conv.lead_info,
      behavioral_data := conv.behavioral_data }
  let pred := predict m d
  let lead : LeadOut :=
    { name := conv.lead_info.name, email := conv.lead_info.email,
      company := conv.lead_info.company, role := conv.lead_info.role,
      industry := conv.lead_info.industry, team_size := none }
  { lead := lead
    intent := pred.intent
    score := pred.score
    top_signals := pred.signals
    recommended_action := pred.recommendation
    explain := generate_explanation pred
    crm_tags := generate_crm_tags lead pred }

/-- The dict returned by LLMPipeline.process_message. -/
structure ProcessResult where
  response : String
  structured_output : StructuredOutput
  conversation_id : Option String

/-- LLMPipeline._error_response: the fixed error record. -/
def error_response (error_message : String) : ProcessResult :=
  { response := "I apologize, but I encountered an error: " ++ error_message
      ++ ". Please try again or contact support."
    structured_output :=
      { lead := {}
        intent := "researching"
        score := 50
        top_signals := ["error_occurred"]
        recommended_action := "nurture_email"
        explain := "Error occurred during processing"
        crm_tags := ["error"] }
    conversation_id := none }

/-- The pipeline's conversations dict, as an association list from
conversation id to state. -/
abbrev ConversationTable : Type := List (String × ConversationState)

/-- LLMPipeline.process_message.  The guard returns the fixed error
record when the conversation id is unknown, before any state is read
or written.  The body of the try block (response generation, lead-info
update, structured output) is abstracted as the argument found, since
the unknown-id branch returns before any of it runs; found maps the
existing state and the user message to the result and the updated
state, which replaces the stored state. -/
def process_message
    (found : ConversationState → String → ProcessResult × ConversationState)
    (table : ConversationTable) (conversation_id user_message : String) :
    ProcessResult × ConversationTable :=
  match List.find? (fun p => p.1 == conversation_id) table with
  | none => (error_response "Conversation not found", table)
  | some pr =>
      let r := found pr.2 user_message
      (r.1, List.map (fun p => if p.1 == conversation_id then (p.1, r.2) else p) table)

/-- Per-destination sync outcome dict; branch-specific keys are Options
(absent key is none). -/
structure SyncOutcome where
  success : Bool
  lead_id : Option String := none
  platform_id : Option String := none
  note_id : Option String := none
  error : Option String := none
  message : String

/-- Adapter configuration: its api_key (the empty string models a
missing key, which is Python-falsy) and its mock_mode flag. -/
structure AdapterConfig where
  api_key : String
  mock_mode : Bool

/-- The constructor fallback shared by HubSpotIntegration and
SalesforceIntegration: with no api_key and mock mode off, mock mode is
forced on. -/
def init_adapter (key : String) (config_mock : Bool) : AdapterConfig :=
  if key == "" && !config_mock then { api_key := key, mock_mode := true }
  else { api_key := key, mock_mode := config_mock }

/-- HubSpotIntegration.create_lead.  In mock mode it fabricates an id
from the timestamp and always succeeds; otherwise the HTTP call on the
constructed payload is modelled by post (Except.error e is a raised
exception with message e, caught by the except branch; Except.ok i is
a successful response carrying contact id i). -/
def hubspot_create_lead (cfg : AdapterConfig) (timestamp : String)
    (post : LeadOut → Except String String) (lead : LeadOut) : SyncOutcome :=
  if cfg.mock_mode then
    { success := true
      lead_id := some ("mock_hs_" ++ timestamp)
      platform_id := some ("mock_hs_" ++ timestamp)
      message := "Mock contact created" }
  else
    match post lead with
    | Except.ok contact_id =>
        { success := true, lead_id := some contact_id,
          platform_id := some contact_id, message := "Contact created" }
    | Except.error e =>
        { success := false, error := some e, message := "Failed to create contact" }

/-- SalesforceIntegration.create_lead, modelled like
hubspot_create_lead. -/
def salesforce_create_lead (cfg : AdapterConfig) (timestamp : String)
    (post : LeadOut → Except String String) (lead : LeadOut) : SyncOutcome :=
  if cfg.mock_mode then
    { success := true
      lead_id := some ("mock_sf_" ++ timestamp)
      platform_id := some ("mock_sf_" ++ timestamp)
      message := "Mock lead created" }
  else
    match post lead with
    | Except.ok sf_id =>
        { success := true, lead_id := some sf_id,
          platform_id := some sf_id, message := "Lead created" }
    | Except.error e =>
        { success := false, error := some e, message := "Lead creation failed" }

/-- CRMClient.sync_leads: each configured destination (api_key truthy
or mock mode) is invoked independently; the outcomes dict is the
association list of destination name to outcome. -/
def sync_leads (hsCfg sfCfg : AdapterConfig) (hsTs sfTs : String)
    (hsPost sfPost : LeadOut → Except String String) (lead : LeadOut) :
    List (String × SyncOutcome) :=
  (if hsCfg.api_key != "" || hsCfg.mock_mode then
    [("hubspot", hubspot_create_lead hsCfg hsTs hsPost lead)] else [])
  ++ (if sfCfg.api_key != "" || sfCfg.mock_mode then
    [("salesforce", salesforce_create_lead sfCfg sfTs sfPost lead)] else [])

/-- Spec-side score formula, following the words of the specification
for the score composition: base 50, the given per-intent offset, the
flag bonuses, 5 times urgency_indicators, bounded engagement, the
team-size tiers, the bounded behavioral terms and the demo bonus. -/
def spec_score_base (f : LeadFeatures) (offset : Int) : ℚ :=
  50 + (offset : ℚ)
    + (if f.budget_mentioned then 10 else 0)
    + (if f.timeline_mentioned then 10 else 0)
    + (if f.pain_points_clear then 15 else 0)
    + (if f.decision_maker then 20 else 0)
    + 5 * (f.urgency_indicators : ℚ)
    + min (f.engagement_score * 10) 20
    + (match f.team_size with
       | none => 0
       | some t => if t > 100 then (10 : ℚ) else if t > 10 then 5 else 0)
    + min ((f.pages_visited : ℚ) * 2) 10
    + min (f.trial_usage * 20) 20
    + min ((f.email_opens : ℚ)) 10
    + (if f.demo_requested then 15 else 0)

/-- Spec-side final score: the spec sum as an integer clamped to
0..100. -/
def spec_score (f : LeadFeatures) (offset : Int) : Int :=
  max 0 (min 100 (pyInt (spec_score_base f offset)))

/-- Spec-side urgency metric, following the words of the specification
literally: the total number of occurrences of urgency keywords in the
text, not deduplicated. -/
def spec_urgency_occurrences (text : List Char) : Nat :=
  (urgency_keywords.map (fun k => countOccur k text)).sum

/-- Helper: the source's guarded urgency contribution equals the spec's
plain multiple. -/
theorem urgency_term_eq (u : Nat) :
    (if u > 0 then (u : ℚ) * 5 else 0) = 5 * (u : ℚ) := by
  rcases Nat.eq_zero_or_pos u with h | h
  · simp [h]
  · rw [if_pos h]; ring

/-- Helper: the source's truthiness-guarded team-size contribution
equals the spec's tier expression (a team size of 0 lands in the
0-valued tier either way). -/
theorem team_term_eq (ts : Option Int) :
    (match ts with
     | none => 0
     | some t =>
        if t ≠ 0 then (if t > 100 then (10 : ℚ) else if t > 10 then 5 else 0) else 0) =
    (match ts with
     | none => 0
     | some t => if t > 100 then (10 : ℚ) else if t > 10 then 5 else 0) := by
  rcases ts with _ | t
  · rfl
  · by_cases h : t = 0
    · subst h; norm_num
    · simp [h]

/-- Helper: the source base score equals the spec base score at the
source's intent-offset lookup. -/
theorem score_base_eq_spec (f : LeadFeatures) (intent : String) :
    score_base f intent = spec_score_base f (intent_scores intent) := by
  unfold score_base spec_score_base
  rw [urgency_term_eq, team_term_eq]

/-- Helper: the clamped score is bounded by the closed interval
0..100. -/
theorem calculate_score_bounds (f : LeadFeatures) (intent : String) :
    0 ≤ calculate_score f intent ∧ calculate_score f intent ≤ 100 := by
  unfold calculate_score
  exact ⟨le_max_left 0 _, max_le (by norm_num) (min_le_left 100 _)⟩

/-- C1: for every feature record (any combination of flags, counts and
magnitudes) and any model and hence any intent value the classifier
may emit, the score field of the result of predict is an integer in
the closed interval 0..100: the untrained branch returns 50 and the
trained branch clamps. -/
theorem predict_score_in_range (m : ScoringModel) (d : ConversationData) :
    0 ≤ (predict m d).score ∧ (predict m d).score ≤ 100 := by
  unfold predict
  split
  · exact ⟨by norm_num [default_prediction], by norm_num [default_prediction]⟩
  · exact calculate_score_bounds (extract_features d) (m.classify (extract_features d))

/-- C2: with no trained classifier, predict never raises (it is a total
function) and returns exactly the fixed default: intent researching,
score 50, signals (the top_signals of the structured output) equal to
the singleton default_prediction marker, recommendation (the
recommended_action) nurture_email. -/
theorem untrained_predict_default (m : ScoringModel) (d : ConversationData)
    (h : m.is_trained = false) :
    predict m d =
      { intent := "researching", score := 50, signals := ["default_prediction"],
        recommendation := "nurture_email", features := {} } := by
  simp [predict, h, default_prediction]

/-- An untrained scoring model instance. -/
def model_untrained : ScoringModel :=
  { is_trained := false, classify := fun _ => "researching" }

/-- Witness for C2 at a concrete untrained model and the empty
conversation. -/
theorem untrained_predict_default_witness :
    model_untrained.is_trained = false ∧
    predict model_untrained {} =
      { intent := "researching", score := 50, signals := ["default_prediction"],
        recommendation := "nurture_email", features := {} } :=
  ⟨rfl, untrained_predict_default model_untrained {} rfl⟩

/-- C3: for each of the four intents the computed score equals the
spec formula: 50 plus the per-intent offset (buy_soon 30, considering
15, researching 0, not_interested -20) plus the flag bonuses, 5 times
urgency_indicators, the bounded engagement and behavioral terms and
the team-size tiers, the sum clamped to 0..100 as an integer. -/
theorem calculate_score_formula (f : LeadFeatures) :
    calculate_score f "buy_soon" = spec_score f 30 ∧
    calculate_score f "considering" = spec_score f 15 ∧
    calculate_score f "researching" = spec_score f 0 ∧
    calculate_score f "not_interested" = spec_score f (-20) := by
  refine ⟨?_, ?_, ?_, ?_⟩ <;>
    · unfold calculate_score spec_score
      rw [score_base_eq_spec]
      rfl

/-- A conversation whose single turn repeats the same urgency keyword
twice. -/
def urgency_repeat_example : ConversationData :=
  { messages := [{ role := "user", content := "urgent urgent".toList }] }

/-- A conversation whose single turn contains two different urgency
keywords. -/
def urgency_two_terms_example : ConversationData :=
  { messages := [{ role := "user", content := "please be quick, this is urgent".toList }] }

/-- C6 counterexample: on the turn text with the same urgency keyword
twice, the source counts 1 (it counts keywords that occur, each at
most once), while the claimed occurrence count not deduplicated is 2;
the claim as stated is false on the code. -/
theorem urgency_occurrences_counterexample :
    (extract_features urgency_repeat_example).urgency_indicators = 1 ∧
    spec_urgency_occurrences (conversation_text urgency_repeat_example.messages) = 2 ∧
    (1 : Nat) ≠ 2 :=
  ⟨rfl, rfl, by decide⟩

/-- C6 amended: urgency_indicators equals the number of distinct
urgency keywords that occur in the lowercased concatenation of all
turn texts — each keyword counts at most once, keywords are checked
independently, so a text containing two different urgency terms still
yields 2. -/
theorem urgency_distinct_keywords :
    (∀ d : ConversationData, (extract_features d).urgency_indicators =
      (urgency_keywords.filter
        (fun k => strContains k (conversation_text d.messages))).length) ∧
    (extract_features urgency_two_terms_example).urgency_indicators = 2 := by
  constructor
  · intro d
    show urgency_keywords.countP (fun k => strContains k (conversation_text d.messages)) =
      (urgency_keywords.filter (fun k => strContains k (conversation_text d.messages))).length
    exact List.countP_eq_length_filter _ _
  · rfl

/-- A lead whose role contains both the head and the manager
keywords. -/
def role_conflict_example : ConversationData :=
  { lead_info := { role := some ("Head Manager".toList) } }

/-- C7 counterexample: the role contains both head (table score 7/10)
and manager (table score 3/5), and head is the higher-authority
keyword, yet the source returns 3/5 — the table is scanned in its
written order, in which manager precedes head, so the first match is
not the highest-authority match and the claim as stated is false. -/
theorem role_authority_counterexample :
    (extract_features role_conflict_example).role_authority = 3/5 ∧
    authority_keywords[5]? = some ("head".toList, (7 : ℚ)/10) ∧
    strContains ("head".toList)
      (lowerStr ((role_conflict_example.lead_info.role).getD [])) = true ∧
    ((3 : ℚ)/5) ≠ (7 : ℚ)/10 :=
  ⟨rfl, rfl, rfl, by norm_num⟩

/-- Helper: the first-match loop equals a find? over the table in its
list order. -/
theorem firstMatchScore_eq_find (role : List Char) (tbl : List (List Char × ℚ)) :
    firstMatchScore role tbl =
      ((tbl.find? (fun p => strContains p.1 role)).map Prod.snd).getD 0 := by
  induction tbl with
  | nil => rfl
  | cons hd tl ih =>
      rcases hd with ⟨k, s⟩
      unfold firstMatchScore
      by_cases h : strContains k role = true
      · have hf : List.find? (fun p => strContains p.1 role) ((k, s) :: tl) = some (k, s) :=
          List.find?_cons_of_pos _ h
        rw [if_pos h, hf]
        rfl
      · have hf : List.find? (fun p => strContains p.1 role) ((k, s) :: tl) =
            List.find? (fun p => strContains p.1 role) tl :=
          List.find?_cons_of_neg _ h
        rw [if_neg h, hf]
        exact ih

/-- C7 amended: role_authority lowercases the role and scans the fixed
table in its written insertion order (ceo, cto, vp, director, manager,
head, lead, senior, junior), returning the first matching keyword's
score and 0 when none matches; the order is not strictly by authority
(head at 7/10 is checked after manager at 3/5), so for a role
containing two keywords the result is the first in table order, not
necessarily the higher-authority one. -/
theorem role_authority_first_match (d : ConversationData) :
    (extract_features d).role_authority =
      ((authority_keywords.find?
        (fun p => strContains p.1 (lowerStr (d.lead_info.role.getD [])))).map
          Prod.snd).getD 0 := by
  show firstMatchScore (lowerStr (d.lead_info.role.getD [])) authority_keywords = _
  exact firstMatchScore_eq_find _ _

/-- The empty session snapshot: no turns, no lead info, no behavioral
data. -/
def empty_snapshot : ConversationData := {}

/-- Helper: feature extraction applied to the all-default snapshot
yields the all-default feature record. -/
theorem extract_features_default_on_empty :
    extract_features {} = ({} : LeadFeatures) := by
  unfold extract_features
  simp only [LeadFeatures.mk.injEq, and_true, true_and]
  repeat' apply And.intro
  all_goals first | rfl | (norm_num; decide)

/-- C8 counterexample: feature extraction on the empty snapshot does
not fail — the source has no raise path at all — and instead returns
the all-default feature record, refuting the claimed InvalidSession
failure mode. -/
theorem extract_empty_returns_default :
    extract_features empty_snapshot = ({} : LeadFeatures) :=
  extract_features_default_on_empty

/-- C8 amended: feature extraction is a total function with no failure
modes at all; on a snapshot with no turns, no lead info and no
behavioral data it returns the default feature record (all counts 0,
all flags false, categories unknown) rather than failing. -/
theorem extract_total_on_empty (d : ConversationData)
    (h1 : d.messages = []) (h2 : d.lead_info = {}) (h3 : d.behavioral_data = {}) :
    extract_features d = ({} : LeadFeatures) := by
  obtain ⟨ms, li, bd⟩ := d
  dsimp only at h1 h2 h3
  subst h1; subst h2; subst h3
  exact extract_features_default_on_empty

/-- Witness for C8's amended theorem at the empty snapshot. -/
theorem extract_total_on_empty_witness :
    empty_snapshot.messages = [] ∧ empty_snapshot.lead_info = {} ∧
    empty_snapshot.behavioral_data = {} ∧
    extract_features empty_snapshot = ({} : LeadFeatures) :=
  ⟨rfl, rfl, rfl, extract_total_on_empty empty_snapshot rfl rfl rfl⟩

/-- A lead whose team_size is the integer 0. -/
def zero_team_example : ConversationData :=
  { lead_info := { team_size := some 0 } }

/-- C9 counterexample: with a present team_size of 0 the source's
truthiness guard skips the whole block, so company_size_category stays
unknown (and the feature's team_size stays none), while the claim says
every present team_size at most 100, including 0, yields smb. -/
theorem team_size_zero_counterexample :
    zero_team_example.lead_info.team_size = some 0 ∧
    (extract_features zero_team_example).company_size_category = "unknown" ∧
    (extract_features zero_team_example).team_size = none ∧
    ("unknown" : String) ≠ "smb" :=
  ⟨rfl, rfl, rfl, by decide⟩

/-- C9 amended: when LeadInfo carries an integer team_size that is not
0, company_size_category is enterprise above 1000, mid_market above
100 and smb otherwise, and the feature's team_size is that value; a
present team_size of 0 is Python-falsy and is treated like an absent
one, leaving the category unknown. -/
theorem company_size_category_nonzero (d : ConversationData) (n : Int)
    (h : d.lead_info.team_size = some n) (hn : n ≠ 0) :
    (extract_features d).company_size_category =
      (if n > 1000 then "enterprise" else if n > 100 then "mid_market" else "smb") ∧
    (extract_features d).team_size = some n := by
  have hc : (extract_features d).company_size_category =
      (team_size_fields d.lead_info.team_size).2 := rfl
  have ht : (extract_features d).team_size =
      (team_size_fields d.lead_info.team_size).1 := rfl
  rw [hc, ht, h]
  simp [team_size_fields, hn]

/-- A lead whose team_size is 50. -/
def fifty_team_example : ConversationData :=
  { lead_info := { team_size := some 50 } }

/-- Witness for C9's amended theorem at team_size 50. -/
theorem company_size_category_nonzero_witness :
    fifty_team_example.lead_info.team_size = some 50 ∧ (50 : Int) ≠ 0 ∧
    ((extract_features fifty_team_example).company_size_category =
      (if (50 : Int) > 1000 then "enterprise"
       else if (50 : Int) > 100 then "mid_market" else "smb") ∧
     (extract_features fifty_team_example).team_size = some 50) :=
  ⟨rfl, by decide, company_size_category_nonzero fifty_team_example 50 rfl (by decide)⟩

/-- C10: process_message called with a conversation id that is not in
the conversation table returns normally with exactly the fixed error
record — empty lead, intent researching, score 50, top_signals the
singleton error_occurred, recommended_action nurture_email, crm_tags
the singleton error — and leaves the conversation table unchanged (the
guard returns before any state is created or mutated, for every
possible behavior of the found-session path). -/
theorem process_message_unknown_id
    (found : ConversationState → String → ProcessResult × ConversationState)
    (table : ConversationTable) (cid msg : String)
    (h : List.find? (fun p => p.1 == cid) table = none) :
    process_message found table cid msg = (error_response "Conversation not found", table) ∧
    (error_response "Conversation not found").structured_output =
      { lead := {}, intent := "researching", score := 50, top_signals := ["error_occurred"],
        recommended_action := "nurture_email", explain := "Error occurred during processing",
        crm_tags := ["error"] } := by
  constructor
  · unfold process_message
    rw [h]
  · rfl

/-- A found-session continuation used only to instantiate
process_message in witnesses. -/
def found_noop : ConversationState → String → ProcessResult × ConversationState :=
  fun c _ => (error_response "noop", c)

/-- Witness for C10 at the empty conversation table. -/
theorem process_message_unknown_id_witness :
    List.find? (fun p => p.1 == "missing") ([] : ConversationTable) = none ∧
    (process_message found_noop [] "missing" "hello" =
        (error_response "Conversation not found", ([] : ConversationTable)) ∧
      (error_response "Conversation not found").structured_output =
        { lead := {}, intent := "researching", score := 50, top_signals := ["error_occurred"],
          recommended_action := "nurture_email", explain := "Error occurred during processing",
          crm_tags := ["error"] }) :=
  ⟨rfl, process_message_unknown_id found_noop [] "missing" "hello" rfl⟩

/-- Helper: when the team_size lookup on the lead dict yields none, the
generated CRM tags never contain a company-size tag. -/
theorem no_size_tag_of_none (lead : LeadOut) (pred : PredictionResult)
    (h : lead.team_size = none) :
    "enterprise" ∉ generate_crm_tags lead pred ∧
    "mid_market" ∉ generate_crm_tags lead pred ∧
    "smb" ∉ generate_crm_tags lead pred := by
  unfold generate_crm_tags
  simp only [h]
  refine ⟨?_, ?_, ?_⟩ <;> · split_ifs <;> decide

/-- An untrained-model conversation whose LeadInfo carries
team_size 2000. -/
def team2000_conv : ConversationState :=
  { conversation_id := "c1"
    messages := [{ role := "user", content := "hello".toList }]
    lead_info := { team_size := some 2000 } }

/-- C5: the claim is false on the code and the code contradicts its own
tag-generation logic: _generate_structured_output builds the lead dict
without a team_size key, so the company-size branch of
_generate_crm_tags can never fire — for every model and every session,
even one whose LeadInfo carries team_size (here 2000, which the claim
says must yield an enterprise tag), the crm_tags of the structured
output contain no company-size tag; on the concrete failing input the
tags are exactly low_priority and nurture. -/
theorem crm_tags_never_contain_size_tag :
    (∀ (m : ScoringModel) (conv : ConversationState),
      "enterprise" ∉ (generate_structured_output m conv).crm_tags ∧
      "mid_market" ∉ (generate_structured_output m conv).crm_tags ∧
      "smb" ∉ (generate_structured_output m conv).crm_tags) ∧
    team2000_conv.lead_info.team_size = some 2000 ∧
    (generate_structured_output model_untrained team2000_conv).crm_tags =
      ["low_priority", "nurture"] := by
  refine ⟨?_, rfl, rfl⟩
  intro m conv
  have hc : (generate_structured_output m conv).crm_tags =
      generate_crm_tags
        (LeadOut.mk conv.lead_info.name conv.lead_info.email conv.lead_info.company
          conv.lead_info.role conv.lead_info.industry none)
        (predict m
          (ConversationData.mk conv.messages conv.lead_info conv.behavioral_data)) := rfl
  rw [hc]
  exact no_size_tag_of_none _ _ rfl

/-- The sync scenario of C4: both destinations configured, hubspot live
with a post that deterministically raises with message e, salesforce in
mock mode. -/
def two_dest_one_failing_sync (key e hsTs sfTs : String)
    (sfPost : LeadOut → Except String String) (lead : LeadOut) :
    List (String × SyncOutcome) :=
  sync_leads { api_key := key, mock_mode := false } { api_key := "", mock_mode := true }
    hsTs sfTs (fun _ => Except.error e) sfPost lead

/-- C4: with two configured destinations of which exactly one
(hubspot, live with a deterministically raising post) fails, sync
returns exactly one success outcome and one failure outcome, the
failure carries the non-empty error string, and the successful
destination's outcome is exactly what its adapter computes alone,
unaffected by the failure. -/
theorem sync_isolation (key e hsTs sfTs : String)
    (sfPost : LeadOut → Except String String) (lead : LeadOut)
    (hkey : key ≠ "") (he : e ≠ "") :
    two_dest_one_failing_sync key e hsTs sfTs sfPost lead =
      [("hubspot",
         { success := false, error := some e, message := "Failed to create contact" }),
       ("salesforce",
         salesforce_create_lead { api_key := "", mock_mode := true } sfTs sfPost lead)] ∧
    (two_dest_one_failing_sync key e hsTs sfTs sfPost lead).countP
      (fun p => p.2.success) = 1 ∧
    (two_dest_one_failing_sync key e hsTs sfTs sfPost lead).countP
      (fun p => !p.2.success) = 1 ∧
    ∀ p ∈ two_dest_one_failing_sync key e hsTs sfTs sfPost lead,
      p.2.success = false → ∃ s, p.2.error = some s ∧ s ≠ "" := by
  have hb : (key != "") = true := bne_iff_ne.mpr hkey
  have hout : two_dest_one_failing_sync key e hsTs sfTs sfPost lead =
      [("hubspot",
         { success := false, error := some e, message := "Failed to create contact" }),
       ("salesforce",
         salesforce_create_lead { api_key := "", mock_mode := true } sfTs sfPost lead)] := by
    unfold two_dest_one_failing_sync sync_leads
    simp [hb, hubspot_create_lead]
  refine ⟨hout, ?_, ?_, ?_⟩
  · rw [hout]; rfl
  · rw [hout]; rfl
  · intro p hp
    rw [hout] at hp
    rcases List.mem_cons.mp hp with h1 | hp2
    · subst h1
      intro
      exact ⟨e, rfl, he⟩
    · have h2 := List.mem_singleton.mp hp2
      subst h2
      intro hfalse
      simp [salesforce_create_lead] at hfalse

/-- A succeeding salesforce post used only to instantiate the sync
scenario in the witness. -/
def sf_post_ok : LeadOut → Except String String := fun _ => Except.ok "sf1"

/-- Witness for C4 at concrete key, error message, timestamps, post
function and lead. -/
theorem sync_isolation_witness :
    ("k" : String) ≠ "" ∧ ("boom" : String) ≠ "" ∧
    (two_dest_one_failing_sync "k" "boom" "t1" "t2" sf_post_ok {} =
      [("hubspot",
         { success := false, error := some "boom", message := "Failed to create contact" }),
       ("salesforce",
         salesforce_create_lead { api_key := "", mock_mode := true } "t2" sf_post_ok {})] ∧
    (two_dest_one_failing_sync "k" "boom" "t1" "t2" sf_post_ok {}).countP
      (fun p => p.2.success) = 1 ∧
    (two_dest_one_failing_sync "k" "boom" "t1" "t2" sf_post_ok {}).countP
      (fun p => !p.2.success) = 1 ∧
    ∀ p ∈ two_dest_one_failing_sync "k" "boom" "t1" "t2" sf_post_ok {},
      p.2.success = false → ∃ s, p.2.error = some s ∧ s ≠ "") :=
  ⟨by decide, by decide,
    sync_isolation "k" "boom" "t1" "t2" sf_post_ok {} (by decide) (by decide)⟩

end LeadBot
